import Mathlib

/-
Verification development for the Merchant-Ai repository.

The embedding models the two generation clients (geminiService), the
app-level session-state handlers (App.tsx), and the canvas compositing
routine (ResultCard.tsx handleDownload).  Remote calls are modelled by an
explicit transport function passed as a parameter; each client returns its
result together with the number of transport calls it made.  Errors are
modelled as the thrown message strings.  Service response bodies are
modelled post-JSON-decoding: a body is either absent (falsy response
text), malformed (JSON.parse throws), or a parsed JSON value.
-/

namespace MerchantAI

/-- JSON values, as produced by a successful JSON.parse of a response body. -/
inductive Json where
  | null
  | bool (b : Bool)
  | num (n : Int)
  | str (s : String)
  | arr (elems : List Json)
  | obj (fields : List (String × Json))

/-- Field kinds declared in the responseSchema: string or array-of-string. -/
inductive FieldKind where
  | string
  | stringArray
  deriving Repr, DecidableEq

/-- The eight fields of the responseSchema sent with the content-generation
request, in source order, each with its declared kind; all eight are in the
schema's required list. -/
def responseSchemaFields : List (String × FieldKind) :=
  [("productName", .string),
   ("shortDescription", .string),
   ("longDescription", .string),
   ("suggestedPrice", .string),
   ("seoKeywords", .stringArray),
   ("hashtags", .stringArray),
   ("socialMediaPost", .string),
   ("targetAudience", .string)]

/-- Look up a field of a JSON object; non-objects have no fields. -/
def Json.lookupField (v : Json) (k : String) : Option Json :=
  match v with
  | .obj fields => fields.lookup k
  | _ => none

/-- Whether a JSON value is a string. -/
def isStringVal (v : Json) : Bool :=
  match v with
  | .str _ => true
  | _ => false

/-- Whether a JSON value is an array whose elements are all strings. -/
def isStringArrayVal (v : Json) : Bool :=
  match v with
  | .arr elems => elems.all isStringVal
  | _ => false

/-- Whether a JSON value has the kind a schema field declares. -/
def kindMatches (k : FieldKind) (v : Json) : Bool :=
  match k with
  | .string => isStringVal v
  | .stringArray => isStringArrayVal v

/-- Whether a JSON value is a fully populated ProductListing: all eight
schema fields present and of the declared kind. -/
def isCompleteListing (v : Json) : Bool :=
  responseSchemaFields.all fun fk =>
    match v.lookupField fk.1 with
    | some fv => kindMatches fk.2 fv
    | none => false

/-- An inline binary payload: base64 content plus declared media type.
An empty string models a falsy (absent or empty) field. -/
structure InlineData where
  data : String
  mimeType : String
  deriving Repr, DecidableEq

/-- A request content part: text, or inline data. -/
inductive Part where
  | text (t : String)
  | inlineData (d : InlineData)
  deriving Repr, DecidableEq

/-- A user-supplied image file, already read: base64 content plus media type. -/
structure ImageFile where
  base64Content : String
  mimeType : String
  deriving Repr, DecidableEq

/-- fileToGenerativePart: wrap a file as an inline-data request part. -/
def fileToGenerativePart (f : ImageFile) : Part :=
  .inlineData ⟨f.base64Content, f.mimeType⟩

/-- Truthiness of process.env.API_KEY: present and non-empty. -/
def envKeyPresent (k : Option String) : Bool :=
  match k with
  | none => false
  | some s => !s.isEmpty

def apiKeyMissingContentMsg : String :=
  "API Key is missing. Please check your environment variables."

def validationMsg : String :=
  "Please provide an image or text description."

def contentFailureMsg : String :=
  "Failed to generate content. Please try again."

def apiKeyMissingImageMsg : String :=
  "API Key is missing."

def noImageMsg : String :=
  "No image generated by the model."

def imageFailureMsg : String :=
  "Failed to generate lifestyle image."

/-- The fixed instruction opening the content-generation prompt. -/
def contentBasePrompt : String :=
  "You are an expert e-commerce copywriter and sales strategist for the Nigerian market. Analyze the input (image and/or text) and generate a high-converting product listing."

/-- The prompt text of the content-generation request: the fixed instruction,
plus the user-context sentence when textInput is truthy (non-empty). -/
def contentPromptText (textInput : String) : String :=
  contentBasePrompt ++
    (if !textInput.isEmpty then
      "\n\nUser provided context: \"" ++ textInput ++ "\". Use this context to refine the description."
    else "")

/-- The parts list of the content-generation request: the text prompt, then
the encoded image when present. -/
def contentParts (imageFile : Option ImageFile) (textInput : String) : List Part :=
  [Part.text (contentPromptText textInput)] ++
    (match imageFile with
     | some f => [fileToGenerativePart f]
     | none => [])

/-- A content-generation response body, modelled post-JSON-decoding:
absent (response.text falsy), malformed (JSON.parse throws), or a parsed
JSON value. -/
inductive ContentRespText where
  | absent
  | malformed (raw : String)
  | parsed (v : Json)

/-- A content-generation transport: the remote call either raises (with an
arbitrary message) or returns a response body. -/
abbrev ContentTransport := List Part → Except String ContentRespText

/-- generateProductContent.  Returns the thrown message or the parsed JSON
value (the source casts the parse result without structural validation),
together with the number of transport calls made.  The try block turns the
absent-body throw, the JSON.parse throw, and any transport raise into the
single generic failure message. -/
def generateProductContent (apiKey : Option String) (transport : ContentTransport)
    (imageFile : Option ImageFile) (textInput : String) : Except String Json × Nat :=
  if !envKeyPresent apiKey then
    (.error apiKeyMissingContentMsg, 0)
  else if imageFile.isNone && textInput.isEmpty then
    (.error validationMsg, 0)
  else
    match transport (contentParts imageFile textInput) with
    | .error _ => (.error contentFailureMsg, 1)
    | .ok .absent => (.error contentFailureMsg, 1)
    | .ok (.malformed _) => (.error contentFailureMsg, 1)
    | .ok (.parsed v) => (.ok v, 1)

/-- A content part of the image-generation response: it may carry inline
binary data. -/
structure RespPart where
  inlineData : Option InlineData
  deriving Repr, DecidableEq

/-- An image-generation response.  parts collapses the optional chain
candidates[0].content.parts: none when any link is missing. -/
structure ImageResponse where
  parts : Option (List RespPart)
  deriving Repr, DecidableEq

/-- An image-generation transport: the remote call either raises (with an
arbitrary message) or returns a response. -/
abbrev ImageTransport := List Part → Except String ImageResponse

/-- The fixed lifestyle-photo prompt, a template literal spanning four
source lines (hence the embedded newlines and indentation). -/
def imagePromptBase (productName description : String) : String :=
  "Create a high-quality, professional Instagram lifestyle photography shot for the product \"" ++ productName ++ "\". \n  Context/Description: " ++ description ++ ". \n  The image should be aesthetically pleasing, bright, and suitable for social media marketing. \n  Aspect Ratio 1:1."

/-- The directive appended when editInstruction is truthy. -/
def editDirective (editInstruction : String) : String :=
  "\n\nIMPORTANT EDIT INSTRUCTION: " ++ editInstruction ++ ". Modify the image to strictly follow this instruction (e.g., change color, background, or setting)."

/-- The sentence appended when an original image is attached. -/
def preserveDirective : String :=
  " preserve the key visual details of the product in the input image but place it in a better background/setting."

/-- The prompt text of the image-generation request, assembled in source
order: base prompt, then the edit directive when the instruction is truthy,
then the preserve sentence when an original image is attached. -/
def imagePromptText (originalImage : Option ImageFile)
    (productName description editInstruction : String) : String :=
  let p := imagePromptBase productName description
  let p := if !editInstruction.isEmpty then p ++ editDirective editInstruction else p
  if originalImage.isSome then p ++ preserveDirective else p

/-- The parts list of the image-generation request: the encoded original
image first when present, then the text prompt. -/
def imageParts (originalImage : Option ImageFile)
    (productName description editInstruction : String) : List Part :=
  (match originalImage with
   | some f => [fileToGenerativePart f]
   | none => []) ++
    [Part.text (imagePromptText originalImage productName description editInstruction)]

/-- The loop condition: a part carries inline binary data when inlineData
is present and its data field is truthy (non-empty). -/
def inlineOf (p : RespPart) : Option InlineData :=
  match p.inlineData with
  | some d => if d.data.isEmpty then none else some d
  | none => none

/-- The response-scanning loop: the first part carrying inline binary data. -/
def findInlineImage : List RespPart → Option InlineData
  | [] => none
  | p :: rest =>
    match inlineOf p with
    | some d => some d
    | none => findInlineImage rest

/-- The first inline image of a response, none when the parts chain is
missing or no part carries inline data. -/
def respInlineImage (resp : ImageResponse) : Option InlineData :=
  match resp.parts with
  | some ps => findInlineImage ps
  | none => none

/-- Wrap inline data as a data URI, defaulting a falsy media type to
image/png. -/
def dataUri (d : InlineData) : String :=
  "data:" ++ (if d.mimeType.isEmpty then "image/png" else d.mimeType) ++ ";base64," ++ d.data

/-- The try block of generateLifestyleImage: call the transport, scan the
response parts for the first inline image, and throw the no-image message
when none is found.  Raises propagate to the catch. -/
def imageTryBody (transport : ImageTransport) (reqParts : List Part) : Except String String :=
  match transport reqParts with
  | .error e => .error e
  | .ok resp =>
    match respInlineImage resp with
    | some d => .ok (dataUri d)
    | none => .error noImageMsg

/-- generateLifestyleImage.  The catch block replaces every error thrown
inside the try block — transport raises and the no-image throw alike —
with the single generic failure message. -/
def generateLifestyleImage (apiKey : Option String) (transport : ImageTransport)
    (originalImage : Option ImageFile) (productName description editInstruction : String) :
    Except String String × Nat :=
  if !envKeyPresent apiKey then
    (.error apiKeyMissingImageMsg, 0)
  else
    match imageTryBody transport (imageParts originalImage productName description editInstruction) with
    | .ok uri => (.ok uri, 1)
    | .error _ => (.error imageFailureMsg, 1)

/-- The ProductListing record, per types.ts. -/
structure GeneratedProductContent where
  productName : String
  shortDescription : String
  longDescription : String
  suggestedPrice : String
  seoKeywords : List String
  hashtags : List String
  socialMediaPost : String
  targetAudience : String
  deriving Repr, DecidableEq

/-- The generation phase, per types.ts. -/
inductive GenerationStatus where
  | idle
  | loading
  | success
  | error
  deriving Repr, DecidableEq

/-- The session state record, per types.ts. -/
structure AppState where
  status : GenerationStatus
  data : Option GeneratedProductContent
  error : Option String
  selectedImage : Option ImageFile
  imagePreviewUrl : Option String
  textInput : String
  isGeneratingImage : Bool
  marketingImageUrl : Option String
  deriving Repr, DecidableEq

/-- The trim() call of the UI gate: strip leading and trailing
whitespace. -/
def jsTrim (s : String) : String :=
  String.mk (((s.data.dropWhile Char.isWhitespace).reverse.dropWhile Char.isWhitespace).reverse)

/-- The guard of handleGenerate (App.tsx): block, reporting an inline
error, when no image is selected and the trimmed text is empty. -/
def uiInputInvalid (s : AppState) : Bool :=
  s.selectedImage.isNone && (jsTrim s.textInput).isEmpty

/-- handleGenerateImage (App.tsx): no-op without an active listing;
otherwise run the image generation (the in-flight flag is raised for its
duration and lowered again on both outcomes).  On success the marketing
image URL is replaced; on failure (the catch block alerts and) only the
in-flight flag is written. -/
def handleGenerateImage (apiKey : Option String) (transport : ImageTransport)
    (editInstruction : String) (s : AppState) : AppState :=
  match s.data with
  | none => s
  | some d =>
    match (generateLifestyleImage apiKey transport s.selectedImage
        d.productName d.shortDescription editInstruction).1 with
    | .ok url => { s with isGeneratingImage := false, marketingImageUrl := some url }
    | .error _ => { s with isGeneratingImage := false }

/-- Outcome of awaiting the logo image element: loaded with natural
dimensions, or failed (onerror also resolves the promise, with the
element's dimensions left at zero). -/
inductive LogoLoad where
  | success (w h : Nat)
  | failure
  deriving Repr, DecidableEq

/-- Canvas effects recorded by the compositing routine, in draw order.
Draw calls are recorded as effects; DOM-level behaviour of drawing a
broken image element is outside the model. -/
inductive DrawOp where
  | drawBase (w h : Nat)
  | drawLogo (x y w h : Rat)
  | drawName (name : String)
  | pillRect (x y w h : Rat) (rounded : Bool)
  | priceText (text : String)
  deriving Repr, DecidableEq

/-- Price-tag font size: Math.max(20, img.width * 0.05). -/
def priceFontSize (baseW : Nat) : Rat :=
  max 20 ((baseW : Rat) * (5 / 100))

/-- Price-tag padding: fontSize * 0.6. -/
def pricePadding (baseW : Nat) : Rat :=
  priceFontSize baseW * (3 / 5)

/-- The drawn pill width: measured text width plus twice the padding. -/
def priceTagPillWidth (measure : String → Rat) (baseW : Nat) (price : String) : Rat :=
  measure price + pricePadding baseW * 2

/-- Logo draw dimensions: width fixed to the reference logo size and height
derived from the aspect, unless that height exceeds the reference size, in
which case height is capped and width derived.  (A failed logo load leaves
both natural dimensions zero; the JS NaN arithmetic that produces is
modelled by Rat division by zero, and no theorem inspects these values.) -/
def logoDrawDims (scaleFactor logoW logoH : Rat) : Rat × Rat :=
  let logoSize := 120 * scaleFactor
  let aspect := logoW / logoH
  let drawWidth := logoSize
  let drawHeight := logoSize / aspect
  if drawHeight > logoSize then (logoSize * aspect, logoSize)
  else (drawWidth, drawHeight)

/-- Collapse each run of whitespace to a single hyphen, per the
replace(whitespace-run, hyphen) call; the flag records whether the
previous character was whitespace. -/
def hyphenateWs : Bool → List Char → List Char
  | _, [] => []
  | inRun, c :: cs =>
    if c.isWhitespace then
      (if inRun then [] else ['-']) ++ hyphenateWs true cs
    else
      c :: hyphenateWs false cs

/-- The download file name: whitespace runs collapsed to hyphens, then
lowercased, wrapped in the fixed stem and extension. -/
def downloadFileName (productName : String) : String :=
  "merchant-ai-" ++ (String.mk (hyphenateWs false productName.data)).toLower ++ ".png"

/-- Browser-side inputs of a composition: whether a 2d context is
available, whether roundRect is available, the logo load outcome, and the
text-measurement oracle of the canvas font engine. -/
structure ComposeEnv where
  ctxAvailable : Bool
  roundRectAvailable : Bool
  logoLoad : LogoLoad
  measure : String → Rat

/-- The result of a composition: the output raster dimensions, the
recorded draw effects, and the triggered download, if any. -/
structure ComposeOutput where
  canvasWidth : Nat
  canvasHeight : Nat
  ops : List DrawOp
  download : Option String

/-- handleDownload (ResultCard.tsx).  none models the early return on a
missing base image (nothing composed, nothing downloaded).  The base
image's onload continuation sizes the canvas to the image, draws it,
returns before any further drawing or download when no 2d context exists,
then draws the logo (whatever its load outcome — onerror also resolves
the awaited promise), the business name when truthy, and the price pill
and text, and finally triggers the PNG download. -/
def handleDownload (env : ComposeEnv) (marketingImageUrl : Option String)
    (baseW baseH : Nat) (logoUrl : Option String)
    (businessName customPrice productName : String) : Option ComposeOutput :=
  match marketingImageUrl with
  | none => none
  | some _ =>
    if !env.ctxAvailable then
      some ⟨baseW, baseH, [], none⟩
    else
      let scaleFactor : Rat := (baseW : Rat) / 1000
      let brandingX : Rat := 40 * scaleFactor
      let brandingY : Rat := 40 * scaleFactor
      let logoOps : List DrawOp :=
        match logoUrl with
        | none => []
        | some _ =>
          let dims :=
            match env.logoLoad with
            | .success w h => logoDrawDims scaleFactor (w : Rat) (h : Rat)
            | .failure => logoDrawDims scaleFactor 0 0
          [DrawOp.drawLogo brandingX brandingY dims.1 dims.2]
      let nameOps : List DrawOp :=
        if !businessName.isEmpty then [DrawOp.drawName businessName] else []
      let fontSize := priceFontSize baseW
      let padding := pricePadding baseW
      let x : Rat := (baseW : Rat) * (95 / 100)
      let y : Rat := (baseH : Rat) * (95 / 100)
      let textWidth := env.measure customPrice
      let pillOps : List DrawOp :=
        [DrawOp.pillRect (x - textWidth - padding * 2) (y - fontSize - padding)
          (priceTagPillWidth env.measure baseW customPrice)
          (fontSize + padding * (3 / 2)) env.roundRectAvailable,
         DrawOp.priceText customPrice]
      some ⟨baseW, baseH,
        DrawOp.drawBase baseW baseH :: (logoOps ++ nameOps ++ pillOps),
        some (downloadFileName productName)⟩

theorem strAppendAssoc (a b c : String) : a ++ b ++ c = a ++ (b ++ c) := by
  rcases a with ⟨a⟩; rcases b with ⟨b⟩; rcases c with ⟨c⟩
  exact congrArg String.mk (List.append_assoc a b c)

theorem stringNeEmptyIsEmptyFalse (s : String) (h : s ≠ "") : s.isEmpty = false := by
  cases hb : s.isEmpty
  · rfl
  · exact absurd ((String.isEmpty_iff s).1 hb) h

/-- C2: with the credential present, calling content generation with no
image and empty text fails with the input-validation error and makes zero
transport calls; and whatever the credential, such a call makes zero
transport calls. -/
theorem contentEmptyInputValidation (apiKey : Option String) (t : ContentTransport)
    (hk : envKeyPresent apiKey = true) :
    generateProductContent apiKey t none "" = (.error validationMsg, 0) ∧
      ∀ k2 : Option String, (generateProductContent k2 t none "").2 = 0 := by
  have h0 : "".isEmpty = true := rfl
  constructor
  · simp [generateProductContent, hk, h0]
  · intro k2
    by_cases h : envKeyPresent k2 <;> simp [generateProductContent, h, h0]

/-- Witness for C2 at a concrete credential and transport. -/
theorem contentEmptyInputValidationWitness :
    generateProductContent (some "key") (fun _ => .ok .absent) none "" =
      (.error validationMsg, 0) :=
  (contentEmptyInputValidation (some "key") (fun _ => .ok .absent) rfl).1

/-- C6: with the credential absent from the environment, both generation
operations fail immediately with their credential-specific messages and
make zero transport calls. -/
theorem missingKeyFailsBoth (apiKey : Option String) (ct : ContentTransport)
    (it : ImageTransport) (img orig : Option ImageFile) (txt pn desc ei : String)
    (hk : envKeyPresent apiKey = false) :
    generateProductContent apiKey ct img txt = (.error apiKeyMissingContentMsg, 0) ∧
      generateLifestyleImage apiKey it orig pn desc ei = (.error apiKeyMissingImageMsg, 0) := by
  constructor <;> simp [generateProductContent, generateLifestyleImage, hk]

/-- Witness for C6 at an absent credential. -/
theorem missingKeyFailsBothWitness :
    generateProductContent none (fun _ => .ok .absent) none "shoe" =
        (.error apiKeyMissingContentMsg, 0) ∧
      generateLifestyleImage none (fun _ => .error "boom") none "P" "D" "" =
        (.error apiKeyMissingImageMsg, 0) :=
  missingKeyFailsBoth none (fun _ => .ok .absent) (fun _ => .error "boom")
    none none "shoe" "P" "D" "" rfl

/-- C7: every composition with a base image produces an output raster of
exactly the base image's natural dimensions, whatever the logo, business
name, and price inputs. -/
theorem composeOutputMatchesBase (env : ComposeEnv) (u : String) (baseW baseH : Nat)
    (logoUrl : Option String) (nm pr pn : String) :
    (handleDownload env (some u) baseW baseH logoUrl nm pr pn).map ComposeOutput.canvasWidth
        = some baseW ∧
      (handleDownload env (some u) baseW baseH logoUrl nm pr pn).map ComposeOutput.canvasHeight
        = some baseH := by
  by_cases h : env.ctxAvailable <;>
    exact ⟨by simp [handleDownload, h], by simp [handleDownload, h]⟩

/-- C8: for a fixed base-image width, the drawn price-tag pill width is
monotonically non-decreasing in the measured price-text width. -/
theorem pillWidthMonotone (measure : String → Rat) (baseW : Nat) (p1 p2 : String)
    (h : measure p1 ≤ measure p2) :
    priceTagPillWidth measure baseW p1 ≤ priceTagPillWidth measure baseW p2 := by
  unfold priceTagPillWidth
  exact add_le_add_right h _

/-- Witness for C8 with a character-count measurement oracle. -/
theorem pillWidthMonotoneWitness :
    priceTagPillWidth (fun s : String => (s.length : Rat)) 1000 "N5" ≤
      priceTagPillWidth (fun s : String => (s.length : Rat)) 1000 "N5,000" :=
  pillWidthMonotone (fun s : String => (s.length : Rat)) 1000 "N5" "N5,000" (by decide)

/-- C10: when the image generation fails, handleGenerateImage leaves every
session-state field — in particular the active listing and the last
marketing image URL — unchanged, except the in-flight flag, which is
reset to false. -/
theorem failedImageGenPreservesState (apiKey : Option String) (t : ImageTransport)
    (ei : String) (s : AppState) (d : GeneratedProductContent) (e : String)
    (hd : s.data = some d)
    (hf : (generateLifestyleImage apiKey t s.selectedImage
        d.productName d.shortDescription ei).1 = .error e) :
    handleGenerateImage apiKey t ei s = { s with isGeneratingImage := false } := by
  simp [handleGenerateImage, hd, hf]

/-- Witness for C10: an absent credential makes the generation fail, and
the previously displayed marketing image survives. -/
theorem failedImageGenPreservesStateWitness :
    handleGenerateImage none (fun _ => .error "boom") "make it pop"
      { status := .success, data := some ⟨"P", "S", "L", "N1", [], [], "post", "aud"⟩,
        error := none, selectedImage := none, imagePreviewUrl := none,
        textInput := "", isGeneratingImage := true, marketingImageUrl := some "data:old" } =
      { status := .success, data := some ⟨"P", "S", "L", "N1", [], [], "post", "aud"⟩,
        error := none, selectedImage := none, imagePreviewUrl := none,
        textInput := "", isGeneratingImage := false, marketingImageUrl := some "data:old" } :=
  failedImageGenPreservesState none (fun _ => .error "boom") "make it pop"
    _ ⟨"P", "S", "L", "N1", [], [], "post", "aud"⟩ apiKeyMissingImageMsg rfl rfl

/-- A well-formed JSON response body carrying only one of the eight
schema fields. -/
def partialListingBody : Json := .obj [("productName", .str "Ankara Tote Bag")]

/-- C1 counterexample: a well-formed JSON response body missing seven of
the eight schema fields is returned as-is — the call returns without
raising, yet the returned record is not fully populated. -/
theorem contentReturnsPartialRecord :
    (generateProductContent (some "key") (fun _ => .ok (.parsed partialListingBody))
        none "tote bag").1 = .ok partialListingBody ∧
      isCompleteListing partialListingBody = false :=
  ⟨rfl, rfl⟩

/-- C1 amended: with the credential present and valid input, the client
raises the generic failure on an absent or malformed response body, and
otherwise returns the parsed JSON value verbatim — no structural
validation is applied, so missing or wrongly shaped fields pass through. -/
theorem contentNoStructuralValidation (apiKey : Option String) (t : ContentTransport)
    (img : Option ImageFile) (txt : String)
    (hk : envKeyPresent apiKey = true)
    (hv : (img.isNone && txt.isEmpty) = false) :
    (∀ v, (generateProductContent apiKey t img txt).1 = .ok v →
        t (contentParts img txt) = .ok (.parsed v)) ∧
      (t (contentParts img txt) = .ok .absent →
        generateProductContent apiKey t img txt = (.error contentFailureMsg, 1)) ∧
      (∀ raw, t (contentParts img txt) = .ok (.malformed raw) →
        generateProductContent apiKey t img txt = (.error contentFailureMsg, 1)) := by
  have hgen : generateProductContent apiKey t img txt =
      (match t (contentParts img txt) with
       | .error _ => (.error contentFailureMsg, 1)
       | .ok .absent => (.error contentFailureMsg, 1)
       | .ok (.malformed _) => (.error contentFailureMsg, 1)
       | .ok (.parsed v) => (.ok v, 1)) := by
    simp [generateProductContent, hk, hv]
  refine ⟨?_, ?_, ?_⟩
  · intro v hok
    rw [hgen] at hok
    rcases ht : t (contentParts img txt) with e | c <;> rw [ht] at hok
    · cases hok
    · cases c with
      | absent => cases hok
      | malformed raw => cases hok
      | parsed w => cases hok; rfl
  · intro ht
    rw [hgen, ht]
  · intro raw ht
    rw [hgen, ht]

/-- Witness for the C1 amended theorem: the partially populated body is
what the transport returned, verbatim. -/
theorem contentNoStructuralValidationWitness :
    (fun _ : List Part => (.ok (.parsed partialListingBody) : Except String ContentRespText))
        (contentParts none "tote") = .ok (.parsed partialListingBody) :=
  (contentNoStructuralValidation (some "key")
      (fun _ => .ok (.parsed partialListingBody)) none "tote" rfl rfl).1
    partialListingBody rfl

/-- C3 counterexample: with a response whose single content part carries no
inline data, the caller observes the generic image-failure message — not
the distinct no-image message, which is thrown inside the try block and
replaced by the catch — so the two failure modes are indistinguishable to
the caller. -/
theorem noInlineImageYieldsGenericError :
    (generateLifestyleImage (some "key") (fun _ => .ok ⟨some [⟨none⟩]⟩) none "P" "D" "").1
        = .error imageFailureMsg ∧
      (Except.error imageFailureMsg : Except String String) ≠ .error noImageMsg :=
  ⟨rfl, fun hc => absurd (Except.error.inj hc) (by decide)⟩

/-- C3 amended: with the credential present, a response with no
inline-image part makes the operation fail with the same generic failure
message a transport error produces (the internal no-image throw is caught
and replaced); when some part carries inline data, the first such part is
returned wrapped as a data URI with its declared media type or the
image/png default. -/
theorem imageResponseParsing (apiKey : Option String) (t : ImageTransport)
    (orig : Option ImageFile) (pn desc ei : String) (resp : ImageResponse)
    (hk : envKeyPresent apiKey = true)
    (ht : t (imageParts orig pn desc ei) = .ok resp) :
    (∀ d, respInlineImage resp = some d →
        generateLifestyleImage apiKey t orig pn desc ei = (.ok (dataUri d), 1)) ∧
      (respInlineImage resp = none →
        generateLifestyleImage apiKey t orig pn desc ei = (.error imageFailureMsg, 1)) ∧
      (∀ tf : ImageTransport, ∀ e, tf (imageParts orig pn desc ei) = .error e →
        generateLifestyleImage apiKey tf orig pn desc ei = (.error imageFailureMsg, 1)) := by
  refine ⟨?_, ?_, ?_⟩
  · intro d hd; simp [generateLifestyleImage, imageTryBody, hk, ht, hd]
  · intro hd; simp [generateLifestyleImage, imageTryBody, hk, ht, hd]
  · intro tf e htf; simp [generateLifestyleImage, imageTryBody, hk, htf]

/-- Witness for the C3 amended theorem: a response part with inline data
and a falsy media type produces the defaulted data URI. -/
theorem imageResponseParsingWitness :
    generateLifestyleImage (some "key")
        (fun _ => .ok ⟨some [⟨some ⟨"QkFTRTY0", ""⟩⟩]⟩) none "P" "D" "" =
      (.ok "data:image/png;base64,QkFTRTY0", 1) :=
  (imageResponseParsing (some "key") (fun _ => .ok ⟨some [⟨some ⟨"QkFTRTY0", ""⟩⟩]⟩)
      none "P" "D" "" ⟨some [⟨some ⟨"QkFTRTY0", ""⟩⟩]⟩ rfl rfl).1
    ⟨"QkFTRTY0", ""⟩ rfl

/-- C5: with a non-empty edit instruction, the prompt of the outgoing
image-generation request contains the instruction's literal text, appended
directly after the fixed lifestyle prompt, and that prompt is a text part
of the request. -/
theorem editInstructionInPrompt (orig : Option ImageFile) (pn desc ei : String)
    (h : ei ≠ "") :
    (∃ tail, imagePromptText orig pn desc ei =
        (imagePromptBase pn desc ++ "\n\nIMPORTANT EDIT INSTRUCTION: ") ++ ei ++ tail) ∧
      Part.text (imagePromptText orig pn desc ei) ∈ imageParts orig pn desc ei := by
  have hne : ei.isEmpty = false := stringNeEmptyIsEmptyFalse ei h
  constructor
  · cases horig : orig with
    | none =>
      exact ⟨". Modify the image to strictly follow this instruction (e.g., change color, background, or setting).",
        by simp [imagePromptText, editDirective, hne, strAppendAssoc]⟩
    | some f =>
      exact ⟨". Modify the image to strictly follow this instruction (e.g., change color, background, or setting)."
          ++ preserveDirective,
        by simp [imagePromptText, editDirective, hne, strAppendAssoc]⟩
  · cases orig <;> simp [imageParts]

/-- Witness for C5 at a concrete edit instruction. -/
theorem editInstructionInPromptWitness :
    (∃ tail, imagePromptText none "Tote" "Bag" "Add a gold chain" =
        (imagePromptBase "Tote" "Bag" ++ "\n\nIMPORTANT EDIT INSTRUCTION: ")
          ++ "Add a gold chain" ++ tail) ∧
      Part.text (imagePromptText none "Tote" "Bag" "Add a gold chain") ∈
        imageParts none "Tote" "Bag" "Add a gold chain" :=
  editInstructionInPrompt none "Tote" "Bag" "Add a gold chain" (by decide)

/-- C9: with no image and a whitespace-only text, the service-level gate
passes — the call is not a validation failure and one transport call is
made — while the UI-level gate, which trims the text first, blocks the
same input: the service-boundary precondition is strictly weaker than the
UI one. -/
theorem whitespaceTextPassesServiceGate (t : ContentTransport) :
    (generateProductContent (some "key") t none " ").2 = 1 ∧
      (generateProductContent (some "key") t none " ").1 ≠ .error validationMsg ∧
      uiInputInvalid
        { status := .idle, data := none, error := none, selectedImage := none,
          imagePreviewUrl := none, textInput := " ", isGeneratingImage := false,
          marketingImageUrl := none } = true := by
  have hgen : generateProductContent (some "key") t none " " =
      (match t (contentParts none " ") with
       | .error _ => (.error contentFailureMsg, 1)
       | .ok .absent => (.error contentFailureMsg, 1)
       | .ok (.malformed _) => (.error contentFailureMsg, 1)
       | .ok (.parsed v) => (.ok v, 1)) := rfl
  refine ⟨?_, ?_, by decide⟩
  · rw [hgen]
    rcases t (contentParts none " ") with e | c
    · rfl
    · cases c <;> rfl
  · rw [hgen]
    rcases t (contentParts none " ") with e | c
    · intro hc
      exact absurd (Except.error.inj hc) (by decide)
    · cases c with
      | absent => intro hc; exact absurd (Except.error.inj hc) (by decide)
      | malformed raw => intro hc; exact absurd (Except.error.inj hc) (by decide)
      | parsed v => intro hc; cases hc

/-- C4: with a 2d context available, a supplied logo whose load fails does
not abort the composition: the produced output still contains the price
pill and price text, still triggers the PNG download, and still draws the
business name when one is present; and with no base image the routine is
a no-op producing no output and no download. -/
theorem logoFailureBestEffort (env : ComposeEnv) (u lg : String) (baseW baseH : Nat)
    (nm pr pn : String)
    (hctx : env.ctxAvailable = true) (hfail : env.logoLoad = .failure) :
    (∀ out, handleDownload env (some u) baseW baseH (some lg) nm pr pn = some out →
        DrawOp.priceText pr ∈ out.ops ∧
        (∃ px py pw ph r, DrawOp.pillRect px py pw ph r ∈ out.ops) ∧
        out.download = some (downloadFileName pn) ∧
        (nm ≠ "" → DrawOp.drawName nm ∈ out.ops)) ∧
      (handleDownload env (some u) baseW baseH (some lg) nm pr pn).isSome = true ∧
      handleDownload env none baseW baseH (some lg) nm pr pn = none := by
  refine ⟨?_, ?_, rfl⟩
  · intro out hout
    simp [handleDownload, hctx, hfail] at hout
    subst hout
    refine ⟨?_, ?_, ?_, ?_⟩
    · simp
    · refine ⟨(baseW : Rat) * (95 / 100) - env.measure pr - pricePadding baseW * 2,
        (baseH : Rat) * (95 / 100) - priceFontSize baseW - pricePadding baseW,
        priceTagPillWidth env.measure baseW pr,
        priceFontSize baseW + pricePadding baseW * (3 / 2),
        env.roundRectAvailable, ?_⟩
      simp
    · rfl
    · intro hnm
      simp [stringNeEmptyIsEmptyFalse nm hnm]
  · simp [handleDownload, hctx]

/-- Witness for C4 at a concrete failing logo and present business name. -/
theorem logoFailureBestEffortWitness :
    (∀ out, handleDownload ⟨true, true, .failure, fun _ => 10⟩ (some "img") 1000 800
          (some "logo") "Ada Stores" "N9,500" "Tote Bag" = some out →
        DrawOp.priceText "N9,500" ∈ out.ops ∧
        (∃ px py pw ph r, DrawOp.pillRect px py pw ph r ∈ out.ops) ∧
        out.download = some (downloadFileName "Tote Bag") ∧
        ("Ada Stores" ≠ "" → DrawOp.drawName "Ada Stores" ∈ out.ops)) ∧
      (handleDownload ⟨true, true, .failure, fun _ => 10⟩ (some "img") 1000 800
          (some "logo") "Ada Stores" "N9,500" "Tote Bag").isSome = true ∧
      handleDownload ⟨true, true, .failure, fun _ => 10⟩ none 1000 800
          (some "logo") "Ada Stores" "N9,500" "Tote Bag" = none :=
  logoFailureBestEffort ⟨true, true, .failure, fun _ => 10⟩ "img" "logo" 1000 800
    "Ada Stores" "N9,500" "Tote Bag" rfl rfl

end MerchantAI
